import Mathlib

/-!
Verification development for the YMYL audit tool.

Shallow embedding of the core pipeline of the repository:
  * `core/models.py`       — `Severity`, `Violation`
  * `core/parser.py`       — `ResponseParser` (structure extraction, JSON load, mapping)
  * `core/orchestrator.py` — `AuditOrchestrator` (sanitation, deduplication,
                             translation restoration, run_analysis control flow)
  * `core/html_extractor.py` / `core/google_doc_extractor.py` — chunk-index
    assignment of the extraction pipelines.

Machine-level caveats of the embedding are recorded next to each definition.
Python strings are modelled as Lean `String` (ASCII behaviour of
`lower`/`strip`/`\w` is assumed; all inputs used in the theorems are ASCII).
-/

/-- Severity levels of `core/models.py` (`class Severity`). -/
inductive Severity where
  | critical
  | high
  | medium
  | low
deriving DecidableEq, Repr

/-- Python `str.lower()` (ASCII model). -/
def py_lower (s : String) : String :=
  String.mk (s.data.map Char.toLower)

/-- Python `str.strip()` with no argument: drop leading and trailing
whitespace (ASCII model). -/
def py_strip (s : String) : String :=
  String.mk (((s.data.dropWhile Char.isWhitespace).reverse.dropWhile
    Char.isWhitespace).reverse)

/-- Model of `Severity.from_string`: `cls(value.lower().strip())`, defaulting to
`MEDIUM` when the lowered/stripped value is not one of the four enum values. -/
def Severity.from_string (value : String) : Severity :=
  let t := py_strip (py_lower value)
  if t = "critical" then .critical
  else if t = "high" then .high
  else if t = "medium" then .medium
  else if t = "low" then .low
  else .medium

/-- Model of `page_number: Union[int, str]` of `core/models.py`. -/
inductive PageNum where
  | num (n : Int)
  | str (s : String)
deriving DecidableEq, Repr

/-- Python `f"{page_number}"` rendering of a `PageNum`. -/
def PageNum.render : PageNum → String
  | .num n => toString n
  | .str s => s

/-- Model of the `Violation` dataclass of `core/models.py`.  Text fields are
modelled as `String` (the dataclass stores whatever the parser hands it; the
parser model below restricts itself to string-valued JSON fields, see
`map_one_violation`).  `translation`/`rewrite_translation` are `Option String`
(`None` vs. a string), `chunk_language` likewise, and `source_audit_id` is the
internal tracking field set by the orchestrator. -/
structure Violation where
  problematic_text : String
  violation_type : String
  explanation : String
  guideline_section : String
  page_number : PageNum
  severity : Severity
  suggested_rewrite : String
  translation : Option String := none
  rewrite_translation : Option String := none
  chunk_language : Option String := some ("English")
  source_audit_id : Option Nat := none
deriving DecidableEq, Repr

/-- True of `p :: l` when `p` occurs at the head of `l` (character-wise). -/
def list_leads : List Char → List Char → Bool
  | [], _ => true
  | _ :: _, [] => false
  | p :: ps, c :: cs => p = c && list_leads ps cs

/-- Model of Python `pat in s` for strings: `pat` occurs as a contiguous
substring of `s` (the empty pattern occurs in everything). -/
def occurs_in (pat : List Char) : List Char → Bool
  | [] => list_leads pat []
  | c :: cs => list_leads pat (c :: cs) || occurs_in pat cs

/-- Python substring membership `pat in s` on `String`. -/
def str_contains (s pat : String) : Bool :=
  occurs_in pat.data s.data

/-- The fixed "no issue" blacklist of `AuditOrchestrator._sanitize_violations`. -/
def sanitize_blacklist : List String :=
  ["no violation", "no issue", "compliant", "none", "n/a", "safe", "passed"]

/-- The case-folded, trimmed `violation_type` key computed by
`_sanitize_violations`: `v.violation_type.lower().strip() if v.violation_type
else ""`. -/
def type_key (v : Violation) : String :=
  if v.violation_type = "" then "" else py_strip (py_lower v.violation_type)

/-- The keep-condition of `_sanitize_violations`: the record survives both
`continue` filters (non-empty type key, no blacklist phrase contained in it,
truthy `problematic_text` that is not a lowercase placeholder). -/
def keep_violation (v : Violation) : Bool :=
  let t := type_key v
  if t = "" || sanitize_blacklist.any (fun term => str_contains t term) then false
  else if v.problematic_text = ""
       || py_lower v.problematic_text = "n/a"
       || py_lower v.problematic_text = "none" then false
  else true

/-- Model of `AuditOrchestrator._sanitize_violations`: the loop with two
`continue` guards is the filter by `keep_violation`. -/
def sanitize_violations (violations : List Violation) : List Violation :=
  violations.filter keep_violation

/-- Model of `AuditOrchestrator._normalize_key`: lowercase the text, erase
every character matched by the regex class `[\W_]+` (everything that is not
alphanumeric: `\W` plus the explicit underscore), truncate to 100 characters.
(The early return for falsy text is subsumed: the empty string maps to
itself.) -/
def normalize_key (text : String) : String :=
  String.mk (((py_lower text).data.filter Char.isAlphanum).take 100)

/-- Python truthiness of an optional string field (`if v.translation:`):
`None` and `""` are falsy. -/
def opt_truthy : Option String → Bool
  | none => false
  | some s => s != ""

/-- The backup key `f"{v.page_number}-{v.violation_type}"` used by
`_restore_translations`. -/
def backup_key (v : Violation) : String :=
  v.page_number.render ++ "-" ++ v.violation_type

/-- Model of the two lookup dictionaries built by `_restore_translations` from
the original list.  Python dict assignment overwrites, i.e. the last original
with a given key wins; modelled by prepending to an association list read with
first-match `List.lookup`.  Only originals with a truthy `translation` are
inserted, and the text map only for a non-empty normalized key. -/
def build_maps_step
    (maps : List (String × (Option String × Option String)) ×
            List (String × (Option String × Option String)))
    (v : Violation) :
    List (String × (Option String × Option String)) ×
    List (String × (Option String × Option String)) :=
  if opt_truthy v.translation then
    let tm := if normalize_key v.problematic_text != ""
      then (normalize_key v.problematic_text,
             (v.translation, v.rewrite_translation)) :: maps.1
      else maps.1
    (tm, (backup_key v, (v.translation, v.rewrite_translation)) :: maps.2)
  else maps

/-- The two dictionaries of `_restore_translations`, built by folding
`build_maps_step` over the original list. -/
def build_maps (original : List Violation) :
    List (String × (Option String × Option String)) ×
    List (String × (Option String × Option String)) :=
  original.foldl build_maps_step ([], [])

/-- Per-record body of the restoration loop of `_restore_translations`:
records with a truthy translation are skipped; otherwise the primary
normalized-text lookup is tried, then the page+type backup lookup. -/
def restore_one (tm bm : List (String × (Option String × Option String)))
    (v : Violation) : Violation :=
  if opt_truthy v.translation then v
  else
    match List.lookup (normalize_key v.problematic_text) tm with
    | some p => { v with translation := p.1, rewrite_translation := p.2 }
    | none =>
      match List.lookup (backup_key v) bm with
      | some p => { v with translation := p.1, rewrite_translation := p.2 }
      | none => v

/-- Model of `AuditOrchestrator._restore_translations` (the maps are fixed
before the loop; each element of `unique_list` is updated independently). -/
def restore_translations (unique_list original_list : List Violation) :
    List Violation :=
  let maps := build_maps original_list
  unique_list.map (restore_one maps.1 maps.2)

/-- JSON values as produced by Python `json.loads` (objects keep field order;
numbers are modelled as integers — no float appears in this development). -/
inductive JValue where
  | null
  | bool (b : Bool)
  | num (n : Int)
  | str (s : String)
  | arr (items : List JValue)
  | obj (fields : List (String × JValue))

/-- Drop leading JSON whitespace. -/
def skip_ws : List Char → List Char
  | [] => []
  | c :: cs => if c = ' ' || c = '\t' || c = '\n' || c = '\r' then skip_ws cs
               else c :: cs

/-- Read a JSON string body up to the closing quote (basic escapes). -/
def take_str : List Char → Option (List Char × List Char)
  | [] => none
  | c :: cs =>
    if c = '"' then some ([], cs)
    else if c = '\\' then
      match cs with
      | [] => none
      | e :: cs2 =>
        let ec : Option Char :=
          if e = '"' then some '"'
          else if e = '\\' then some '\\'
          else if e = '/' then some '/'
          else if e = 'n' then some '\n'
          else if e = 't' then some '\t'
          else if e = 'r' then some '\r'
          else none
        match ec with
        | none => none
        | some d =>
          match take_str cs2 with
          | none => none
          | some (s, rest) => some (d :: s, rest)
    else
      match take_str cs with
      | none => none
      | some (s, rest) => some (c :: s, rest)

/-- Longest digit run at the head of the input. -/
def take_digits : List Char → (List Char × List Char)
  | [] => ([], [])
  | c :: cs =>
    if c.isDigit then
      let (d, r) := take_digits cs
      (c :: d, r)
    else ([], c :: cs)

/-- Digit run to a natural number. -/
def digits_to_nat (ds : List Char) : Nat :=
  ds.foldl (fun a c => a * 10 + (c.toNat - 48)) 0

/-- Read a JSON integer (optional minus sign). -/
def take_num : List Char → Option (Int × List Char)
  | [] => none
  | c :: cs =>
    if c = '-' then
      match take_digits cs with
      | ([], _) => none
      | (ds, r) => some (-(digits_to_nat ds : Int), r)
    else if c.isDigit then
      match take_digits (c :: cs) with
      | (ds, r) => some ((digits_to_nat ds : Int), r)
    else none

mutual

/-- Fuel-bounded recursive-descent JSON reader (model of Python `json.loads`;
the fuel passed by `json_loads` is ample for any input). -/
def parse_jvalue : Nat → List Char → Option (JValue × List Char)
  | 0, _ => none
  | Nat.succ fuel, cs =>
    match skip_ws cs with
    | [] => none
    | c :: rest =>
      if c = '"' then
        match take_str rest with
        | some (s, r) => some (.str (String.mk s), r)
        | none => none
      else if c = '[' then
        match skip_ws rest with
        | ']' :: r => some (.arr [], r)
        | rest2 =>
          match parse_items fuel rest2 with
          | some (items, r) => some (.arr items, r)
          | none => none
      else if c = '\x7b' then
        match skip_ws rest with
        | '\x7d' :: r => some (.obj [], r)
        | rest2 =>
          match parse_members fuel rest2 with
          | some (fields, r) => some (.obj fields, r)
          | none => none
      else if c = 't' then
        if list_leads ['r', 'u', 'e'] rest then some (.bool true, rest.drop 3)
        else none
      else if c = 'f' then
        if list_leads ['a', 'l', 's', 'e'] rest then some (.bool false, rest.drop 4)
        else none
      else if c = 'n' then
        if list_leads ['u', 'l', 'l'] rest then some (.null, rest.drop 3)
        else none
      else
        match take_num (c :: rest) with
        | some (n, r) => some (.num n, r)
        | none => none

/-- Comma-separated array items up to the closing bracket. -/
def parse_items : Nat → List Char → Option (List JValue × List Char)
  | 0, _ => none
  | Nat.succ fuel, cs =>
    match parse_jvalue fuel cs with
    | none => none
    | some (v, r) =>
      match skip_ws r with
      | ',' :: r2 =>
        match parse_items fuel r2 with
        | some (vs, r3) => some (v :: vs, r3)
        | none => none
      | ']' :: r2 => some ([v], r2)
      | _ => none

/-- Comma-separated object members up to the closing brace. -/
def parse_members : Nat → List Char → Option (List (String × JValue) × List Char)
  | 0, _ => none
  | Nat.succ fuel, cs =>
    match skip_ws cs with
    | '"' :: r =>
      match take_str r with
      | none => none
      | some (k, r2) =>
        match skip_ws r2 with
        | ':' :: r3 =>
          match parse_jvalue fuel r3 with
          | none => none
          | some (v, r4) =>
            match skip_ws r4 with
            | ',' :: r5 =>
              match parse_members fuel r5 with
              | some (fs, r6) => some ((String.mk k, v) :: fs, r6)
              | none => none
            | '\x7d' :: r5 => some ([(String.mk k, v)], r5)
            | _ => none
        | _ => none
    | _ => none

end

/-- Model of Python `json.loads`: whole-input parse, trailing junk rejected. -/
def json_loads (s : String) : Option JValue :=
  match parse_jvalue (2 * s.length + 8) s.data with
  | some (v, rest) => if skip_ws rest = [] then some v else none
  | none => none

/-- True when, after optional whitespace, a closing code fence follows
(the regex rest `\s*` + three backticks; backticks are not whitespace, so
the greedy `\s*` is deterministic here). -/
def fence_close_ok (cs : List Char) : Bool :=
  list_leads ['\x60', '\x60', '\x60'] (skip_ws cs)

/-- The lazy group tail `[\s\S]*?\]` of the fence regex followed by
`\s*` and the closing fence: scan for the EARLIEST `]` that is followed
(after whitespace) by a closing fence, returning the characters before it
(lazy matching takes the shortest expansion). -/
def lazy_to_bracket : List Char → Option (List Char)
  | [] => none
  | c :: cs =>
    if c = ']' && fence_close_ok cs then some []
    else
      match lazy_to_bracket cs with
      | some grp => some (c :: grp)
      | none => none

/-- One attempt of the post-fence part `\s*(\[[\s\S]*?\])\s*` + fence
at a fixed position: skip whitespace, require `[`, then the lazy bracket
search; returns the bracketed group. -/
def fence_body (ds : List Char) : Option (List Char) :=
  match skip_ws ds with
  | '[' :: rest =>
    match lazy_to_bracket rest with
    | some interior => some ('[' :: (interior ++ [']']))
    | none => none
  | _ => none

/-- Match attempt at one occurrence of an opening fence (`cs` is positioned
right after the three opening backticks): the optional `(?:json)?` is tried
greedily first (with the literal consumed), then, on failure, with the empty
alternative — as the regex engine backtracks. -/
def try_fence_match (cs : List Char) : Option (List Char) :=
  if list_leads ['j', 's', 'o', 'n'] cs then
    match fence_body (cs.drop 4) with
    | some g => some g
    | none => fence_body cs
  else fence_body cs

/-- Strategy 1 of `ResponseParser._extract_json_structure`: the `re.search`
of ``` ```(?:json)?\s*(\[[\s\S]*?\])\s*``` ``` — try every position in
order, succeed at the first position that starts an opening fence and whose
full pattern matches, returning capture group 1. -/
def find_code_block : List Char → Option (List Char)
  | [] => none
  | c :: cs =>
    if list_leads ['\x60', '\x60', '\x60'] (c :: cs) then
      match try_fence_match (cs.drop 2) with
      | some g => some g
      | none => find_code_block cs
    else find_code_block cs

/-- Model of `ResponseParser._extract_json_structure`.  Strategy 1 is the
fenced code-block regex (`find_code_block`, on the stripped text as in the
source, which reassigns `text = text.strip()` first); when no fenced span
matches, strategy 2 (the whole-text bracket regex anchored on the stripped
text) and the bracket fallback are both exactly the start/end bracket test
on the stripped text, returning that text. -/
def extract_json_structure (text : String) : Option String :=
  if text = "" then none
  else
    let t := py_strip text
    match find_code_block t.data with
    | some g => some (String.mk g)
    | none =>
      match t.data with
      | '[' :: _ => if t.data.getLast? = some ']' then some t else none
      | _ => none

/-- Model of `ResponseParser._heuristic_fix_json`: tabs become four spaces,
carriage returns are removed. -/
def heuristic_fix_json (s : String) : String :=
  String.mk (s.data.foldr (fun c acc =>
    if c = '\t' then ' ' :: ' ' :: ' ' :: ' ' :: acc
    else if c = '\r' then acc
    else c :: acc) [])

/-- Python truthiness of a JSON value (for `not raw_violations`). -/
def jtruthy : JValue → Bool
  | .null => false
  | .bool b => b
  | .num n => n != 0
  | .str s => s != ""
  | .arr items => !items.isEmpty
  | .obj fields => !fields.isEmpty

/-- Python `isinstance(x, str)` on a JSON value. -/
def is_jstr : JValue → Bool
  | .str _ => true
  | _ => false

/-- Python `dict.get(k)` over the object fields produced by `json_loads`
(objects in this development have distinct keys, so first match is the
dictionary value). -/
def dict_get (fields : List (String × JValue)) (k : String) : Option JValue :=
  List.lookup k fields

mutual

/-- Python `repr` of a JSON-loaded value (used by `str()` on containers). -/
def py_repr : JValue → String
  | .null => "None"
  | .bool b => if b then "True" else "False"
  | .num n => toString n
  | .str s => "\x27" ++ s ++ "\x27"
  | .arr items => "[" ++ py_repr_items items ++ "]"
  | .obj fields => "\x7b" ++ py_repr_fields fields ++ "\x7d"

/-- Comma-joined reprs of a list of values. -/
def py_repr_items : List JValue → String
  | [] => ""
  | [x] => py_repr x
  | x :: xs => py_repr x ++ ", " ++ py_repr_items xs

/-- Comma-joined reprs of object members. -/
def py_repr_fields : List (String × JValue) → String
  | [] => ""
  | [(k, v)] => "\x27" ++ k ++ "\x27: " ++ py_repr v
  | (k, v) :: fs => "\x27" ++ k ++ "\x27: " ++ py_repr v ++ ", " ++ py_repr_fields fs

end

/-- Python `str()` of a JSON-loaded value (for `str(v_dict.get(...))`). -/
def py_str : JValue → String
  | .str s => s
  | v => py_repr v

/-- A string field with default, as in `v_dict.get(k, dflt)` followed by
storage into a string-typed slot.  `none` marks a record the model does not
construct: for `severity` this is faithful (a non-string makes
`value.lower()` raise `AttributeError`, caught, record skipped); for the
other text fields Python would store the non-string value unchanged — this
model restricts itself to string-valued text fields. -/
def get_str_field (fields : List (String × JValue)) (k : String)
    (dflt : String) : Option String :=
  match dict_get fields k with
  | none => some dflt
  | some (.str s) => some s
  | some _ => none

/-- An optional string field with `None` default, as in `v_dict.get(k)`. -/
def get_opt_field (fields : List (String × JValue)) (k : String) :
    Option (Option String) :=
  match dict_get fields k with
  | none => some none
  | some .null => some none
  | some (.str s) => some (some s)
  | some _ => none

/-- Model of the `Violation(...)` construction inside
`ResponseParser._map_data_to_violations`, with the defensive defaults of
the source; `none` is the `except`-skipped record. -/
def map_one_violation (fields : List (String × JValue)) : Option Violation := do
  let pt ← get_str_field fields ("problematic_text") ("N/A")
  let vt ← get_str_field fields ("violation_type") ("Unknown")
  let ex ← get_str_field fields ("explanation") ("No explanation")
  let gs : String :=
    match dict_get fields ("guideline_section") with
    | none => "N/A"
    | some v => py_str v
  let pn ← match dict_get fields ("page_number") with
    | none => some (PageNum.num 0)
    | some (.num n) => some (PageNum.num n)
    | some (.str s) => some (PageNum.str s)
    | some _ => none
  let sv ← match dict_get fields ("severity") with
    | none => some (Severity.from_string ("medium"))
    | some (.str s) => some (Severity.from_string s)
    | some _ => none
  let sr ← get_str_field fields ("suggested_rewrite") ("N/A")
  let tr ← get_opt_field fields ("translation")
  let rt ← get_opt_field fields ("rewrite_translation")
  let cl ← match dict_get fields ("chunk_language") with
    | none => some (some ("English"))
    | some (.str s) => some (some s)
    | some .null => some none
    | some _ => none
  some { problematic_text := pt, violation_type := vt, explanation := ex,
         guideline_section := gs, page_number := pn, severity := sv,
         suggested_rewrite := sr, translation := tr, rewrite_translation := rt,
         chunk_language := cl, source_audit_id := none }

/-- Model of `ResponseParser._map_data_to_violations`: a non-list payload maps
to `[]`; each list element must be an object with a `violations` value that is
neither a string nor falsy (`None`, `[]`, ...) and is a list; its dict items
are mapped individually, skipping failures. -/
def map_data_to_violations (data : JValue) : List Violation :=
  match data with
  | .arr sections =>
    sections.foldl (fun acc sec =>
      match sec with
      | .obj fields =>
        match dict_get fields ("violations") with
        | none => acc
        | some rv =>
          if is_jstr rv || !jtruthy rv then acc
          else
            match rv with
            | .arr v_dicts =>
              acc ++ v_dicts.filterMap (fun vd =>
                match vd with
                | .obj f => map_one_violation f
                | _ => none)
            | _ => acc
      | _ => acc) []
  | _ => []

/-- Model of `ResponseParser.parse_to_violations`: extract the JSON span,
load it, heal-and-retry once on failure, map to violation records; every
failure path yields the empty list. -/
def parse_to_violations (raw_text : String) : List Violation :=
  match extract_json_structure raw_text with
  | none => []
  | some cleaned =>
    match json_loads cleaned with
    | some data => map_data_to_violations data
    | none =>
      match json_loads (heuristic_fix_json cleaned) with
      | some data => map_data_to_violations data
      | none => []

/-- The `(success, text, error)` triple returned by
`openai_service.get_response_async` for one remote call. -/
structure RawResult where
  success : Bool
  text : String
  error : String
deriving DecidableEq, Repr

/-- One entry of `raw_debug_data` in `AuditOrchestrator.run_analysis`. -/
structure AuditDebug where
  audit_number : Nat
  raw_response : String
  parsed_count : Nat
deriving DecidableEq, Repr

/-- The `debug_package` dictionary assembled by `run_analysis`. -/
structure DebugPackage where
  audits : List AuditDebug
  deduplicator_raw : String
  input_violation_count : Nat
  output_violation_count : Nat
deriving DecidableEq, Repr

/-- The dictionary returned by `run_analysis`: either the early
`{"success": False, "error": ...}` dictionary or the full success
dictionary (the markdown report renders the violation list with the
wall-clock date and is not modelled; `processing_time` likewise). -/
inductive RunResult where
  | failure (error : String)
  | ok (violations : List Violation) (total_violations_found : Nat)
      (unique_violations : Nat) (debug_info : Option DebugPackage)
deriving DecidableEq, Repr

/-- True on the early-failure dictionary. -/
def RunResult.is_failure : RunResult → Bool
  | .failure _ => true
  | .ok _ _ _ _ => false

/-- The `if success and text:` test of `run_analysis` on one call result. -/
def audit_call_ok (r : RawResult) : Bool :=
  r.success && r.text != ""

/-- The tagging loop `for v in violations: v.source_audit_id = audit_id`
(audit ids are 1-based). -/
def tag_audit (i : Nat) (vs : List Violation) : List Violation :=
  vs.map (fun v => { v with source_audit_id := some (i + 1) })

/-- The `all_violations` accumulation of `run_analysis`: every call passing
`if success and text:` contributes its parsed, tagged violations in call
order (extending by an empty list is a no-op, so the `if violations:` guard
around the extend is immaterial here). -/
def collect_violations (results : List RawResult) : List Violation :=
  results.enum.foldl (fun acc ir =>
    if audit_call_ok ir.2 then acc ++ tag_audit ir.1 (parse_to_violations ir.2.text)
    else acc) []

/-- The `successful_audits` counter of `run_analysis`: it is incremented only
inside `if violations:`, i.e. only for a call that passed
`if success and text:` AND whose reply parsed to a non-empty list. -/
def successful_audits (results : List RawResult) : Nat :=
  results.countP (fun r => audit_call_ok r && !(parse_to_violations r.text).isEmpty)

/-- The `raw_debug_data` list of `run_analysis`: one entry per call passing
`if success and text:` (also when it parsed to zero violations). -/
def raw_debug_data (results : List RawResult) : List AuditDebug :=
  (results.enum.filter (fun ir => audit_call_ok ir.2)).map
    (fun ir => { audit_number := ir.1 + 1, raw_response := ir.2.text,
                 parsed_count := (parse_to_violations ir.2.text).length })

/-- Model of `AuditOrchestrator._run_deduplication`.  The remote
deduplicator call is the environment, passed as its `(success, text, error)`
result; the second component of the outer pair is instrumentation recording
whether the remote call was made at all (the source returns before the call
when the input list is empty). -/
def run_deduplication (all_violations : List Violation) (remote : RawResult) :
    (List Violation × String) × Bool :=
  if all_violations.isEmpty then (([], "No violations"), false)
  else if remote.success && remote.text != "" then
    ((restore_translations (parse_to_violations remote.text) all_violations,
      remote.text), true)
  else ((all_violations, "FAILED: " ++ remote.error), true)

/-- Model of `AuditOrchestrator.run_analysis` after the remote calls
returned.  `results` is the `raw_results` list of per-call triples (its
length is the `audit_count` of the run), `dedup_remote` the deduplicator
triple of the deduplicator call.  Context injection (step 0) happens before the calls and is
immaterial to the returned dictionary. -/
def run_analysis (results : List RawResult) (dedup_remote : RawResult)
    (debug_mode : Bool) : RunResult :=
  let all_violations := collect_violations results
  if successful_audits results = 0 then RunResult.failure ("All audits failed.")
  else
    let clean := sanitize_violations all_violations
    let step2 :=
      if results.length > 1 && !clean.isEmpty then
        (run_deduplication clean dedup_remote).1
      else (clean, "Skipped (Test Mode or No Violations)")
    let final := sanitize_violations step2.1
    let dbg :=
      if debug_mode then
        some { audits := raw_debug_data results, deduplicator_raw := step2.2,
               input_violation_count := all_violations.length,
               output_violation_count := final.length }
      else none
    RunResult.ok final clean.length final.length dbg

/-- One `big_chunk` of the extraction output. -/
structure BigChunk where
  big_chunk_index : Nat
  content_name : String
  small_chunks : List String
deriving DecidableEq, Repr

/-- One element met by `HTMLContentExtractor._extract_with_direct_chunking`
during its document-order scan.  The BeautifulSoup tree is the environment:
`h2` carries the cleaned text of an `h2` element; `item` carries, for any
other scanned tag (`h3/h4/p/table/ul/ol/dl`), the `formatted` line produced
by the per-tag formatting block (`WARNING:`/`H3:`/`CONTENT:`/`LIST:`/...),
`none` when the element is skipped (already processed, empty text, or no
formatted output). -/
inductive HElem where
  | h2 (text : String)
  | item (formatted : Option String)

/-- The flush of `_extract_with_direct_chunking`: emit the current section
(or the pre-H2 `Introduction` when the current section is empty) at the
current index and increment it; emit nothing when both are empty. -/
def flush_step (cur pre : List String) (name : String) (idx : Nat) :
    List BigChunk × Nat :=
  if !cur.isEmpty then ([⟨idx, name, cur⟩], idx + 1)
  else if !pre.isEmpty then ([⟨idx, "Introduction", pre⟩], idx + 1)
  else ([], idx)

/-- The chunking loop of `_extract_with_direct_chunking`, with the exact
`chunk_index` threading of the source: a flush happens at each non-empty H2
and once after the loop, each time incrementing the index. -/
def direct_chunk_aux : List HElem → List String → List String → String → Nat →
    List BigChunk × Nat
  | [], cur, pre, name, idx => flush_step cur pre name idx
  | .h2 t :: rest, cur, pre, name, idx =>
    if t = "" then direct_chunk_aux rest cur pre name idx
    else
      let fl := flush_step cur pre name idx
      let tail := direct_chunk_aux rest ["H2: " ++ t] pre t fl.2
      (fl.1 ++ tail.1, tail.2)
  | .item f :: rest, cur, pre, name, idx =>
    match f with
    | none => direct_chunk_aux rest cur pre name idx
    | some line =>
      if name = "Main Content" then
        direct_chunk_aux rest cur (pre ++ [line]) name idx
      else
        direct_chunk_aux rest (cur ++ [line]) pre name idx

/-- Model of `_create_final_json` of both extractors: an empty chunk list becomes the
single placeholder chunk. -/
def final_json_chunks (chunks : List BigChunk) : List BigChunk :=
  if chunks.isEmpty then [⟨1, "Empty", ["No content found"]⟩] else chunks

/-- Chunk assembly of `HTMLContentExtractor.extract_content`.  The soup
hunts are the environment: `metadata_items` is what `_extract_metadata_chunk`
collects, `faq_items` what `_extract_faq_chunk` collects (`[]` when absent),
`elems` the scanned body elements.  In casino mode the metadata chunk (if
any) is emitted first at index 1, the body chunks follow, and the FAQ chunk
(if any) is appended last at the then-current index; generic mode only runs
the body scan. -/
def html_extract_chunks (casino : Bool) (metadata_items faq_items : List String)
    (elems : List HElem) : List BigChunk :=
  if casino then
    let m := if !metadata_items.isEmpty
      then ([(⟨1, "Page Metadata & Summary", metadata_items⟩ : BigChunk)], 2)
      else ([], 1)
    let body := direct_chunk_aux elems [] [] "Main Content" m.2
    let faq := if !faq_items.isEmpty
      then [(⟨body.2, "Frequently Asked Questions", faq_items⟩ : BigChunk)]
      else []
    m.1 ++ body.1 ++ faq
  else (direct_chunk_aux elems [] [] "Main Content" 1).1

/-- Model of `HTMLContentExtractor.extract_content` on the non-raising path: success
flag `True` together with the final chunk document. -/
def html_extract_content (casino : Bool) (metadata_items faq_items : List String)
    (elems : List HElem) : Bool × List BigChunk :=
  (true, final_json_chunks (html_extract_chunks casino metadata_items faq_items elems))

/-- One element met by `GoogleDocExtractor._chunk_linear_content`:
`header` is an `h2`/`h3` (post visual-to-semantic normalization), `para` a
cleaned text of a paragraph, `list` a `ul`/`ol` with its item texts. -/
inductive GElem where
  | header (text : String)
  | para (text : String)
  | list (items : List String)

/-- The warning marker searched for in paragraph text. -/
def warn_mark : String := "⚠️"

/-- The linear chunking loop of `GoogleDocExtractor._chunk_linear_content`,
with the exact `chunk_index` threading of the source: a flush at a header
increments the index, but the trailing flush after the loop does NOT
increment it (the source has no `chunk_index += 1` there).  The empty-text
`continue` is modelled per element (for a list, via its joined items). -/
def chunk_linear_aux : List GElem → List String → String → Nat →
    List BigChunk × Nat
  | [], cur, title, idx =>
    if !cur.isEmpty then ([⟨idx, title, cur⟩], idx)
    else ([], idx)
  | .header t :: rest, cur, title, idx =>
    if t = "" then chunk_linear_aux rest cur title idx
    else
      let fl := if !cur.isEmpty then ([(⟨idx, title, cur⟩ : BigChunk)], idx + 1)
                else ([], idx)
      let tail := chunk_linear_aux rest ["HEADER: " ++ t] t fl.2
      (fl.1 ++ tail.1, tail.2)
  | .para t :: rest, cur, title, idx =>
    if t = "" then chunk_linear_aux rest cur title idx
    else if str_contains t warn_mark then
      chunk_linear_aux rest (cur ++ ["WARNING: " ++ t]) title idx
    else
      chunk_linear_aux rest (cur ++ ["CONTENT: " ++ t]) title idx
  | .list items :: rest, cur, title, idx =>
    if String.join items = "" then chunk_linear_aux rest cur title idx
    else
      chunk_linear_aux rest (cur ++ ["LIST: " ++ String.intercalate (" // ") items])
        title idx

/-- Chunk assembly of `GoogleDocExtractor.extract_content`.  The soup hunts
are the environment: `metadata_items` is what `_hunt_for_metadata` collects,
`backpack_items` what `_extract_global_backpack` collects, `faq_items` what
`_extract_flexible_faq` collects.  The source appends, in this list order:
the metadata chunk (at index 1) if any, then the backpack chunk at the fixed
index 0 if any, then the linear content chunks, then the FAQ chunk at the
then-current index.  (`list(set(...))` on the backpack items is modelled as
duplicate erasure; Python set iteration order is unspecified.) -/
def google_doc_chunks (metadata_items backpack_items faq_items : List String)
    (elems : List GElem) : List BigChunk :=
  let m := if !metadata_items.isEmpty
    then ([(⟨1, "Metadata & Summary", metadata_items⟩ : BigChunk)], 2)
    else ([], 1)
  let b := if !backpack_items.isEmpty
    then [(⟨0, "GLOBAL CONTEXT", backpack_items.eraseDups⟩ : BigChunk)]
    else []
  let lin := chunk_linear_aux elems [] "Main Content" m.2
  let f := if !faq_items.isEmpty
    then [(⟨lin.2, "Frequently Asked Questions", faq_items⟩ : BigChunk)]
    else []
  m.1 ++ b ++ lin.1 ++ f

/-- Model of `GoogleDocExtractor.extract_content` on the non-raising path. -/
def google_doc_extract_content (metadata_items backpack_items faq_items : List String)
    (elems : List GElem) : Bool × List BigChunk :=
  (true, final_json_chunks
    (google_doc_chunks metadata_items backpack_items faq_items elems))

/-! Concrete data used to evaluate the model. -/

/-- A flat violation dictionary, as JSON text. -/
def v_flat_text : String :=
  "\x7b\"problematic_text\":\"x\",\"violation_type\":\"T\"\x7d"

/-- The violation record `v_flat_text` maps to (defaults filled in). -/
def v_flat : Violation :=
  { problematic_text := "x", violation_type := "T",
    explanation := "No explanation", guideline_section := "N/A",
    page_number := .num 0, severity := .medium, suggested_rewrite := "N/A" }

/-- A brace-headed reply carrying a fenced violations array (exercises the
fenced code-block strategy of the structure extractor). -/
def fenced_text : String :=
  "\x7b\"a\":1\x7d \x60\x60\x60json\n[\x7b\"violations\":[" ++ v_flat_text
    ++ "]\x7d]\n\x60\x60\x60"

/-- A reply whose single violation has the unknown severity string. -/
def sev_urgent_text : String :=
  "[\x7b\"violations\":[\x7b\"severity\":\"urgent\"\x7d]\x7d]"

/-- A reply whose single violation has severity with case/whitespace noise. -/
def sev_critical_text : String :=
  "[\x7b\"violations\":[\x7b\"severity\":\"CRITICAL \"\x7d]\x7d]"

/-- The all-defaults violation record produced from an empty violation dict. -/
def v_default : Violation :=
  { problematic_text := "N/A", violation_type := "Unknown",
    explanation := "No explanation", guideline_section := "N/A",
    page_number := .num 0, severity := .medium, suggested_rewrite := "N/A" }

/-- A genuine finding whose type contains the blacklist word "safe". -/
def v_medical : Violation :=
  { problematic_text := "Take two pills daily",
    violation_type := "Unsafe medical claim", explanation := "e",
    guideline_section := "1.2", page_number := .num 3, severity := .high,
    suggested_rewrite := "r" }

/-- A genuine finding whose type contains the blacklist word "none". -/
def v_nonexempt : Violation :=
  { v_medical with
    problematic_text := "Real finding text",
    violation_type := "Nonexempt content" }

/-- A failed remote call (timeout). -/
def remote_fail : RawResult :=
  { success := false, text := "", error := "Timeout" }

/-- An original violation carrying translations. -/
def v_orig_translated : Violation :=
  { problematic_text := "Guaranteed 100% win!",
    violation_type := "Misleading claim", explanation := "e",
    guideline_section := "2.1", page_number := .num 4, severity := .high,
    suggested_rewrite := "r", translation := some ("Gewonnen garantiert!"),
    rewrite_translation := some ("Umschreiben") }

/-- The merged record: punctuation stripped, translation dropped. -/
def v_filtered_untranslated : Violation :=
  { v_orig_translated with
    problematic_text := "Guaranteed 100% win",
    translation := none, rewrite_translation := none }

/-- An auditor reply containing three flat violations. -/
def three_viol_text : String :=
  "[\x7b\"violations\":[" ++ v_flat_text ++ "," ++ v_flat_text ++ ","
    ++ v_flat_text ++ "]\x7d]"

/-- Two successful auditor calls with three violations each. -/
def results_six : List RawResult :=
  [{ success := true, text := three_viol_text, error := "" },
   { success := true, text := three_viol_text, error := "" }]

/-- A deduplicator reply that filters everything away. -/
def dedup_empty_ok : RawResult :=
  { success := true, text := "[]", error := "" }

/-- A successful auditor call whose reply parses to zero violations. -/
def audit_ok_empty : RawResult :=
  { success := true, text := "[]", error := "" }

/-- A failed auditor call. -/
def audit_failed : RawResult :=
  { success := false, text := "", error := "Timeout" }

/-! Shared helper lemmas. -/

/-- The placeholder injection never yields an empty chunk list. -/
theorem final_json_chunks_not_empty (chunks : List BigChunk) :
    (final_json_chunks chunks).isEmpty = false := by
  unfold final_json_chunks
  split
  · rfl
  · next h => simpa using h

/-- C8: the sanitizer is idempotent (`sanitize(sanitize(X)) == sanitize(X)`)
and is a pure filter — its output is a sublist of its input, so it never
adds, reorders, or mutates records. -/
theorem sanitize_idempotent_pure (X : List Violation) :
    sanitize_violations (sanitize_violations X) = sanitize_violations X ∧
    (sanitize_violations X).Sublist X := by
  constructor
  · simp [sanitize_violations, List.filter_filter]
  · exact List.filter_sublist X

/-- C10: the sanitizer drops every violation whose case-folded, trimmed
`violation_type` contains any blacklist phrase as a substring — not only an
exact blacklist match — regardless of its `problematic_text`. -/
theorem sanitize_blacklist_substring (X : List Violation) (v : Violation)
    (_hmem : v ∈ X)
    (hterm : ∃ t ∈ sanitize_blacklist, str_contains (type_key v) t = true) :
    v ∉ sanitize_violations X := by
  intro hin
  have hk : keep_violation v = true := (List.mem_filter.mp hin).2
  obtain ⟨t, ht, hc⟩ := hterm
  have hany : sanitize_blacklist.any (fun term => str_contains (type_key v) term)
      = true := List.any_eq_true.mpr ⟨t, ht, hc⟩
  simp [keep_violation, hany] at hk

/-- Witness for C10: "Unsafe medical claim" (contains "safe") and
"Nonexempt content" (contains "none") are both dropped although their
problematic texts are genuine findings. -/
theorem sanitize_blacklist_substring_witness :
    v_medical ∉ sanitize_violations [v_medical] ∧
    v_nonexempt ∉ sanitize_violations [v_nonexempt] :=
  ⟨sanitize_blacklist_substring [v_medical] v_medical (by decide) (by decide),
   sanitize_blacklist_substring [v_nonexempt] v_nonexempt (by decide) (by decide)⟩

/-- C7: parsing a violation with unknown severity "urgent" yields `medium`,
parsing "CRITICAL " (case/whitespace noise) yields `critical`, and every
violation the parser produces has one of the four severities. -/
theorem severity_parsing_defaults :
    (parse_to_violations sev_urgent_text).map Violation.severity
      = [Severity.medium] ∧
    (parse_to_violations sev_critical_text).map Violation.severity
      = [Severity.critical] ∧
    ∀ (text : String) (v : Violation), v ∈ parse_to_violations text →
      v.severity = .critical ∨ v.severity = .high ∨ v.severity = .medium ∨
        v.severity = .low := by
  refine ⟨by decide, by decide, ?_⟩
  intro text v _
  cases v.severity
  · exact Or.inl rfl
  · exact Or.inr (Or.inl rfl)
  · exact Or.inr (Or.inr (Or.inl rfl))
  · exact Or.inr (Or.inr (Or.inr rfl))

/-- Witness for C7: the membership hypothesis discharged on the concrete
"urgent" reply. -/
theorem severity_parsing_defaults_witness :
    v_default.severity = .critical ∨ v_default.severity = .high ∨
      v_default.severity = .medium ∨ v_default.severity = .low :=
  severity_parsing_defaults.2.2 sev_urgent_text v_default (by decide)

/-- C3: with an empty input list, `_run_deduplication` returns without
invoking the remote call (instrumentation bit `false`) and the result is the
input unchanged; with a non-empty input and a failed remote call, it returns
the original input list unchanged with a FAILED debug string. -/
theorem dedup_fallback (vs : List Violation) (remote : RawResult) :
    (vs = [] → run_deduplication vs remote = (([], "No violations"), false)) ∧
    (vs ≠ [] → (remote.success && remote.text != "") = false →
      run_deduplication vs remote = ((vs, "FAILED: " ++ remote.error), true)) := by
  constructor
  · intro h
    subst h
    rfl
  · intro hne hfail
    have h1 : vs.isEmpty = false := by
      cases vs
      · exact absurd rfl hne
      · rfl
    simp [run_deduplication, h1, hfail]

/-- Witness for C3: both branches at concrete inputs (a timed-out remote
call and the single-violation list). -/
theorem dedup_fallback_witness :
    run_deduplication [] remote_fail = (([], "No violations"), false) ∧
    run_deduplication [v_medical] remote_fail
      = (([v_medical], "FAILED: Timeout"), true) :=
  ⟨(dedup_fallback [] remote_fail).1 rfl,
   (dedup_fallback [v_medical] remote_fail).2 (by decide) (by decide)⟩

/-- Without any backtick in the input, the fenced code-block search fails. -/
theorem find_code_block_eq_none (cs : List Char) (h : '\x60' ∉ cs) :
    find_code_block cs = none := by
  induction cs with
  | nil => rfl
  | cons c cs ih =>
    have hc : ('\x60' : Char) ≠ c := by
      intro he
      exact h (by rw [he]; exact List.mem_cons_self c cs)
    have hcs : ('\x60' : Char) ∉ cs := fun hm => h (List.mem_cons_of_mem c hm)
    unfold find_code_block
    have hl : list_leads ['\x60', '\x60', '\x60'] (c :: cs) = false := by
      have hd : decide (('\x60' : Char) = c) = false := decide_eq_false hc
      simp [list_leads, hd]
    simp only [hl, Bool.false_eq_true, if_false]
    exact ih hcs

/-- Every character of the stripped string is a character of the string. -/
theorem py_strip_mem {c : Char} {s : String} (h : c ∈ (py_strip s).data) :
    c ∈ s.data := by
  have h1 : c ∈ ((s.data.dropWhile Char.isWhitespace).reverse.dropWhile
      Char.isWhitespace).reverse := h
  rw [List.mem_reverse] at h1
  have h2 : c ∈ (s.data.dropWhile Char.isWhitespace).reverse :=
    List.Sublist.mem h1 (List.dropWhile_sublist _)
  rw [List.mem_reverse] at h2
  exact List.Sublist.mem h2 (List.dropWhile_sublist _)

/-- Counterexample for C2: the same flat violation dict parses to the
single-element list only in shape (b); shape (a) (a single object) and
shape (c) (a bare array of flat dicts) both parse to the empty list, not to
an equivalent single-element list. -/
theorem parser_shape_tolerance_cex :
    parse_to_violations ("[\x7b\"violations\":[" ++ v_flat_text ++ "]\x7d]")
      = [v_flat] ∧
    parse_to_violations ("\x7b\"violations\":[" ++ v_flat_text ++ "]\x7d") = [] ∧
    parse_to_violations ("[" ++ v_flat_text ++ "]") = [] := by
  refine ⟨by decide, by decide, by decide⟩

/-- C2 amended: only shape (b) — an array of per-section objects with a
nested `violations` array — yields the violation list.  A fence-free text
whose stripped form begins with a brace (shape (a)) parses to the empty list:
the fenced code-block strategy cannot fire without a backtick, and the
remaining strategies of `_extract_json_structure` only accept bracketed
texts (a brace-headed text that DOES contain a fenced bracketed span is
parsed from that span, as the fourth conjunct shows on a concrete input).
Any section lacking a `violations` key (shape (c), a bare flat dict)
contributes nothing, and a per-section `violations` value that is a string
yields zero violations for that section rather than an error. -/
theorem parser_shape_tolerance_amended :
    (∀ (text : String), text ≠ "" → '\x60' ∉ text.data →
      (py_strip text).data.head? = some '\x7b' → parse_to_violations text = []) ∧
    (∀ (fields : List (String × JValue)), dict_get fields ("violations") = none →
      map_data_to_violations (.arr [.obj fields]) = []) ∧
    parse_to_violations ("[\x7b\"violations\":[" ++ v_flat_text ++ "]\x7d]")
      = [v_flat] ∧
    parse_to_violations fenced_text = [v_flat] ∧
    parse_to_violations ("[\x7b\"violations\":\"no violation found\"\x7d]") = [] := by
  refine ⟨?_, ?_, by decide, by decide, by decide⟩
  · intro text hne hbt hhead
    have hfc : find_code_block (py_strip text).data = none :=
      find_code_block_eq_none _ (fun hm => hbt (py_strip_mem hm))
    have hex : extract_json_structure text = none := by
      simp only [extract_json_structure, if_neg hne, hfc]
      split
      · next heq =>
        rw [heq] at hhead
        simp at hhead
      · rfl
    simp only [parse_to_violations, hex]
  · intro fields hget
    simp [map_data_to_violations, hget]

/-- Witness for C2 amended: shape (a) and shape (c) hypotheses discharged on
the concrete flat dict. -/
theorem parser_shape_tolerance_witness :
    parse_to_violations ("\x7b\"violations\":[" ++ v_flat_text ++ "]\x7d") = [] ∧
    map_data_to_violations
      (.arr [.obj [("problematic_text", .str ("x")), ("violation_type", .str ("T"))]])
      = [] :=
  ⟨parser_shape_tolerance_amended.1 _ (by decide) (by decide) (by decide),
   parser_shape_tolerance_amended.2.1 _ rfl⟩

/-- C5: extraction of a document in which the hunts find nothing (the
empty/whitespace-only input) returns success together with exactly one
placeholder chunk carrying the "No content found" marker, for the HTML
extractor (both modes) and the Google-Doc extractor; and no extraction ever
returns an empty `big_chunks` list. -/
theorem extraction_nonempty_output :
    (∀ casino, html_extract_content casino [] [] []
      = (true, [{ big_chunk_index := 1, content_name := "Empty",
                  small_chunks := ["No content found"] }])) ∧
    google_doc_extract_content [] [] [] []
      = (true, [{ big_chunk_index := 1, content_name := "Empty",
                  small_chunks := ["No content found"] }]) ∧
    (∀ casino metadata_items faq_items elems,
      ((html_extract_content casino metadata_items faq_items elems).2).isEmpty
        = false) ∧
    (∀ metadata_items backpack_items faq_items elems,
      ((google_doc_extract_content metadata_items backpack_items faq_items
        elems).2).isEmpty = false) := by
  refine ⟨?_, by decide, ?_, ?_⟩
  · intro casino
    cases casino
    · rfl
    · rfl
  · intro casino metadata_items faq_items elems
    exact final_json_chunks_not_empty _
  · intro metadata_items backpack_items faq_items elems
    exact final_json_chunks_not_empty _

/-- One fold step adds at most the entry of its own violation to the text
map. -/
theorem build_maps_step_fst_mem
    (acc : List (String × (Option String × Option String)) ×
           List (String × (Option String × Option String)))
    (v : Violation) (kp : String × (Option String × Option String))
    (h : kp ∈ (build_maps_step acc v).1) :
    kp ∈ acc.1 ∨ (opt_truthy v.translation = true ∧
      normalize_key v.problematic_text = kp.1 ∧
      kp.2 = (v.translation, v.rewrite_translation)) := by
  unfold build_maps_step at h
  by_cases ht : opt_truthy v.translation
  · rw [if_pos ht] at h
    by_cases hn : normalize_key v.problematic_text != ""
    · simp only [hn, if_pos] at h
      rcases List.mem_cons.mp h with h1 | h1
      · subst h1
        exact Or.inr ⟨ht, rfl, rfl⟩
      · exact Or.inl h1
    · simp only [hn, if_neg] at h
      exact Or.inl h
  · rw [if_neg ht] at h
    exact Or.inl h

/-- Every entry of the text map of `build_maps` comes from an original
violation with a truthy translation whose normalized problematic text is the
key. -/
theorem build_maps_fst_mem (original : List Violation) :
    ∀ (acc : List (String × (Option String × Option String)) ×
             List (String × (Option String × Option String)))
      (kp : String × (Option String × Option String)),
      kp ∈ (original.foldl build_maps_step acc).1 →
      kp ∈ acc.1 ∨ ∃ o ∈ original, opt_truthy o.translation = true ∧
        normalize_key o.problematic_text = kp.1 ∧
        kp.2 = (o.translation, o.rewrite_translation) := by
  induction original with
  | nil =>
    intro acc kp h
    exact Or.inl h
  | cons v rest ih =>
    intro acc kp h
    rw [List.foldl_cons] at h
    rcases ih _ _ h with h1 | ⟨o, ho, h2⟩
    · rcases build_maps_step_fst_mem acc v kp h1 with h2 | h2
      · exact Or.inl h2
      · exact Or.inr ⟨v, List.mem_cons_self v rest, h2⟩
    · exact Or.inr ⟨o, List.mem_cons_of_mem v ho, h2⟩

/-- C6: for a filtered violation lacking a translation, a successful lookup
of its normalized problematic text fills `translation` and
`rewrite_translation` with the looked-up pair, and that pair originates from
an original violation with the same normalized key; when the primary lookup
fails, a successful `(page_number, violation_type)` backup lookup fills the
fields instead; restoration is this per-record update mapped over the
filtered list; and the normalized keys of "Guaranteed 100% win!" and
"Guaranteed 100% win" coincide. -/
theorem restore_translation_matching (original : List Violation) (v : Violation)
    (hmiss : opt_truthy v.translation = false) :
    (∀ p, List.lookup (normalize_key v.problematic_text)
        (build_maps original).1 = some p →
      restore_one (build_maps original).1 (build_maps original).2 v
        = { v with translation := p.1, rewrite_translation := p.2 } ∧
      ∃ o ∈ original, opt_truthy o.translation = true ∧
        normalize_key o.problematic_text = normalize_key v.problematic_text ∧
        p = (o.translation, o.rewrite_translation)) ∧
    (List.lookup (normalize_key v.problematic_text) (build_maps original).1
        = none →
      ∀ p, List.lookup (backup_key v) (build_maps original).2 = some p →
        restore_one (build_maps original).1 (build_maps original).2 v
          = { v with translation := p.1, rewrite_translation := p.2 }) ∧
    (∀ unique_list, restore_translations unique_list original
      = unique_list.map
          (restore_one (build_maps original).1 (build_maps original).2)) ∧
    normalize_key (v_orig_translated.problematic_text)
      = normalize_key (v_filtered_untranslated.problematic_text) := by
  refine ⟨?_, ?_, fun _ => rfl, by decide⟩
  · intro p hp
    constructor
    · simp [restore_one, hmiss, hp]
    · have hmem : (normalize_key v.problematic_text, p) ∈ (build_maps original).1 := by
        obtain ⟨l₁, l₂, heq, -⟩ := List.lookup_eq_some_iff.mp hp
        rw [heq]
        exact List.mem_append_right _ (List.mem_cons_self _ _)
      rcases build_maps_fst_mem original ([], []) _ hmem with h1 | ⟨o, ho, h1, h2, h3⟩
      · simp at h1
      · exact ⟨o, ho, h1, h2, by simpa using h3⟩
  · intro hnone p hp
    simp [restore_one, hmiss, hnone, hp]

/-- Witness for C6: the spec's concrete example — the original
"Guaranteed 100% win!" with a German translation restores the translation of
the filtered "Guaranteed 100% win" via the normalized-key match. -/
theorem restore_translation_matching_witness :
    restore_one (build_maps [v_orig_translated]).1
      (build_maps [v_orig_translated]).2 v_filtered_untranslated
      = { v_filtered_untranslated with
          translation := some ("Gewonnen garantiert!"),
          rewrite_translation := some ("Umschreiben") } :=
  ((restore_translation_matching [v_orig_translated] v_filtered_untranslated
      rfl).1 (some ("Gewonnen garantiert!"), some ("Umschreiben")) (by decide)).1

/-- The `successful_audits` counter is zero exactly when no call both
returned successfully with non-empty text and parsed to a non-empty
violation list. -/
theorem successful_audits_eq_zero_iff (results : List RawResult) :
    successful_audits results = 0 ↔
      ∀ r ∈ results, ¬(r.success = true ∧ r.text ≠ "" ∧
        parse_to_violations r.text ≠ []) := by
  unfold successful_audits
  rw [List.countP_eq_zero]
  refine forall_congr' (fun r => forall_congr' (fun _ => not_congr ?_))
  simp [audit_call_ok, List.isEmpty_iff, and_assoc]

/-- C1 amended: the ensemble run returns the failure dictionary
`{"success": False, "error": "All audits failed."}` if and only if no
auditor call both succeeded (success flag with non-empty text) and parsed to
a non-empty violation list.  In particular a successful call whose reply
parses to zero violations does NOT count toward batch success. -/
theorem audit_batch_failure_iff (results : List RawResult)
    (dedup_remote : RawResult) (debug_mode : Bool) :
    run_analysis results dedup_remote debug_mode
      = RunResult.failure ("All audits failed.") ↔
    ∀ r ∈ results, ¬(r.success = true ∧ r.text ≠ "" ∧
      parse_to_violations r.text ≠ []) := by
  rw [← successful_audits_eq_zero_iff]
  unfold run_analysis
  by_cases h0 : successful_audits results = 0
  · simp [h0]
  · simp [h0]

/-- Counterexample for C1: a single auditor call that returns successfully
but whose reply parses to zero violations makes the whole run fail with
"All audits failed.", although the claim requires success whenever at least
one call returns successfully. -/
theorem audit_batch_failure_cex :
    audit_ok_empty.success = true ∧
    parse_to_violations audit_ok_empty.text = [] ∧
    run_analysis [audit_ok_empty] audit_failed false
      = RunResult.failure ("All audits failed.") := by
  refine ⟨rfl, by decide, by decide⟩

/-- Witness for C1 amended: the all-failed run at a concrete input. -/
theorem audit_batch_failure_witness :
    run_analysis [audit_failed] audit_failed false
      = RunResult.failure ("All audits failed.") :=
  (audit_batch_failure_iff [audit_failed] audit_failed false).mpr (by decide)

/-- C9 amended: whenever a debug-mode run does not fail, its debug package
exists and records exactly the input violation count (pre-sanitation pool
size) and the output violation count of the final list; no other
anomaly marker is produced (the `DebugPackage` structure has no further
fields beyond the per-audit records and the raw deduplicator text). -/
theorem dedup_debug_counts (results : List RawResult)
    (dedup_remote : RawResult) :
    (run_analysis results dedup_remote true).is_failure = false →
    ∃ vs tf uc d, run_analysis results dedup_remote true
      = RunResult.ok vs tf uc (some d) ∧
      d.input_violation_count = (collect_violations results).length ∧
      d.output_violation_count = vs.length := by
  intro h
  unfold run_analysis at h ⊢
  by_cases h0 : successful_audits results = 0
  · rw [if_pos h0] at h
    exact absurd h (by simp [RunResult.is_failure])
  · rw [if_neg h0]
    exact ⟨_, _, _, _, rfl, rfl, rfl⟩

set_option maxRecDepth 4000 in
/-- Witness for C9 amended: the non-failure hypothesis discharged on the
concrete six-violation run. -/
theorem dedup_debug_counts_witness :
    ∃ vs tf uc d, run_analysis results_six dedup_empty_ok true
      = RunResult.ok vs tf uc (some d) ∧
      d.input_violation_count = (collect_violations results_six).length ∧
      d.output_violation_count = vs.length :=
  dedup_debug_counts results_six dedup_empty_ok (by decide)

set_option maxRecDepth 4000 in
/-- Counterexample for C9: a run whose six-finding input is filtered to an
empty output still returns plain success, and its debug package consists of
the per-audit records, the raw deduplicator text and the two counts only —
no field flags the total filtering as suspicious. -/
theorem dedup_debug_counts_cex :
    run_analysis results_six dedup_empty_ok true
      = RunResult.ok [] 6 0 (some
          { audits := [{ audit_number := 1, raw_response := three_viol_text,
                         parsed_count := 3 },
                       { audit_number := 2, raw_response := three_viol_text,
                         parsed_count := 3 }],
            deduplicator_raw := "[]",
            input_violation_count := 6, output_violation_count := 0 }) := by
  decide


/-- The flush emits indices `range' idx k` and returns `idx + k`. -/
theorem flush_step_indices (cur pre : List String) (name : String) (idx : Nat) :
    idx ≤ (flush_step cur pre name idx).2 ∧
    (flush_step cur pre name idx).1.map BigChunk.big_chunk_index
      = List.range' idx ((flush_step cur pre name idx).2 - idx) := by
  unfold flush_step
  by_cases hc : cur.isEmpty
  · by_cases hp : pre.isEmpty
    · simp [hc, hp]
    · simp [hc, hp]
  · simp [hc]

/-- Index threading of the HTML body-chunking loop: chunks are emitted with
consecutive indices from the starting index, and the returned index is past
the last emitted one. -/
theorem direct_chunk_aux_indices :
    ∀ (elems : List HElem) (cur pre : List String) (name : String) (idx : Nat),
      idx ≤ (direct_chunk_aux elems cur pre name idx).2 ∧
      (direct_chunk_aux elems cur pre name idx).1.map BigChunk.big_chunk_index
        = List.range' idx ((direct_chunk_aux elems cur pre name idx).2 - idx) := by
  intro elems
  induction elems with
  | nil =>
    intro cur pre name idx
    exact flush_step_indices cur pre name idx
  | cons e rest ih =>
    intro cur pre name idx
    cases e with
    | h2 t =>
      by_cases ht : t = ""
      · simp only [direct_chunk_aux, if_pos ht]
        exact ih cur pre name idx
      · simp only [direct_chunk_aux, if_neg ht]
        obtain ⟨f1, f2⟩ := flush_step_indices cur pre name idx
        obtain ⟨k, hk⟩ : ∃ k, (flush_step cur pre name idx).2 = idx + k :=
          ⟨(flush_step cur pre name idx).2 - idx, by omega⟩
        rw [hk] at f2
        obtain ⟨h1, h2⟩ := ih (["H2: " ++ t]) pre t (idx + k)
        obtain ⟨m, hm⟩ : ∃ m,
            (direct_chunk_aux rest (["H2: " ++ t]) pre t (idx + k)).2
              = idx + k + m :=
          ⟨(direct_chunk_aux rest (["H2: " ++ t]) pre t (idx + k)).2 - (idx + k),
            by omega⟩
        rw [hm] at h2
        constructor
        · rw [hk, hm]
          omega
        · rw [hk, List.map_append, f2, h2, hm]
          have r1 : idx + k - idx = k := by omega
          have r2 : idx + k + m - (idx + k) = m := by omega
          have r3 : idx + k + m - idx = k + m := by omega
          rw [r1, r2, r3, List.range'_append_1, Nat.add_comm m k]
    | item f =>
      cases f with
      | none =>
        simp only [direct_chunk_aux]
        exact ih cur pre name idx
      | some line =>
        simp only [direct_chunk_aux]
        by_cases hn : name = "Main Content"
        · simp only [if_pos hn]
          exact ih cur (pre ++ [line]) name idx
        · simp only [if_neg hn]
          exact ih (cur ++ [line]) pre name idx

/-- The HTML extractor assembles a chunk list that always carries indices
`1, 2, 3, ...` in list order, for some count. -/
theorem html_extract_chunks_exists_range (casino : Bool)
    (metadata_items faq_items : List String) (elems : List HElem) :
    ∃ n, (html_extract_chunks casino metadata_items faq_items elems).map
      BigChunk.big_chunk_index = List.range' 1 n := by
  cases casino with
  | false =>
    obtain ⟨h1, h2⟩ := direct_chunk_aux_indices elems [] [] ("Main Content") 1
    exact ⟨_, by simpa [html_extract_chunks] using h2⟩
  | true =>
    by_cases hm : metadata_items.isEmpty
    · obtain ⟨h1, h2⟩ := direct_chunk_aux_indices elems [] [] ("Main Content") 1
      obtain ⟨k, hk⟩ : ∃ k, (direct_chunk_aux elems [] [] ("Main Content") 1).2
          = 1 + k :=
        ⟨(direct_chunk_aux elems [] [] ("Main Content") 1).2 - 1, by omega⟩
      rw [hk] at h2
      have r : 1 + k - 1 = k := by omega
      rw [r] at h2
      by_cases hf : faq_items.isEmpty
      · refine ⟨k, ?_⟩
        simp only [html_extract_chunks, hm, hf, Bool.not_true, Bool.not_false,
          if_true, Bool.false_eq_true, Bool.true_eq_false, if_false,
          List.nil_append, List.append_nil]
        exact h2
      · refine ⟨k + 1, ?_⟩
        simp only [html_extract_chunks, hm, hf, Bool.not_true, Bool.not_false,
          if_true, Bool.false_eq_true, Bool.true_eq_false, if_false,
          List.nil_append, List.append_nil]
        rw [List.map_append, h2, hk]
        simp only [List.map_cons, List.map_nil]
        rw [List.range'_1_concat]
    · obtain ⟨h1, h2⟩ := direct_chunk_aux_indices elems [] [] ("Main Content") 2
      obtain ⟨k, hk⟩ : ∃ k, (direct_chunk_aux elems [] [] ("Main Content") 2).2
          = 2 + k :=
        ⟨(direct_chunk_aux elems [] [] ("Main Content") 2).2 - 2, by omega⟩
      rw [hk] at h2
      have r : 2 + k - 2 = k := by omega
      rw [r] at h2
      by_cases hf : faq_items.isEmpty
      · refine ⟨k + 1, ?_⟩
        simp only [html_extract_chunks, hm, hf, Bool.not_true, Bool.not_false,
          if_true, Bool.false_eq_true, Bool.true_eq_false, if_false,
          List.nil_append, List.append_nil, List.singleton_append]
        rw [List.map_cons, h2, List.range'_succ]
      · refine ⟨k + 2, ?_⟩
        simp only [html_extract_chunks, hm, hf, Bool.not_true, Bool.not_false,
          if_true, Bool.false_eq_true, Bool.true_eq_false, if_false,
          List.nil_append, List.append_nil, List.singleton_append]
        rw [List.map_append, List.map_cons, h2, hk]
        simp only [List.map_cons, List.map_nil]
        rw [eq_comm, List.range'_eq_append_iff]
        refine ⟨k + 1, by omega, ?_, ?_⟩
        · rw [List.range'_succ]
        · have e3 : k + 2 - (k + 1) = 1 := by omega
          rw [e3, List.range'_one]
          congr 1
          omega

/-- C4 amended: for the surgical and generic HTML extractor, the emitted
`big_chunk_index` values, read in output order, are exactly `1, 2, ...,
length` — contiguous, strictly increasing, starting at 1, never containing 0
(this extractor emits no backpack chunk).  The Google-Doc extractor violates
the corresponding ordering (see the counterexample theorem). -/
theorem extraction_index_ordering (casino : Bool)
    (metadata_items faq_items : List String) (elems : List HElem) :
    ((html_extract_content casino metadata_items faq_items elems).2).map
        BigChunk.big_chunk_index
      = List.range' 1
          ((html_extract_content casino metadata_items faq_items elems).2).length := by
  obtain ⟨n, hn⟩ :=
    html_extract_chunks_exists_range casino metadata_items faq_items elems
  unfold html_extract_content final_json_chunks
  by_cases he : (html_extract_chunks casino metadata_items faq_items elems).isEmpty
  · simp [he]
  · simp only [he, Bool.false_eq_true, if_false]
    have hl : (html_extract_chunks casino metadata_items faq_items elems).length
        = n := by
      have hc := congrArg List.length hn
      simpa using hc
    rw [hn, hl]

/-- Counterexample for C4: a Google-Doc extraction that finds a metadata
item and a backpack item emits, in output-list order, indices `[1, 0]` —
the backpack chunk with index 0 is appended after the metadata chunk with
index 1, so the sequence is not strictly increasing and 0 is not the first
element. -/
theorem extraction_index_ordering_cex :
    ((google_doc_extract_content (["H1: Title"])
        (["SAFETY_CTX: Risk Warnings found in document."]) [] []).2).map
      BigChunk.big_chunk_index = [1, 0] ∧
    ((google_doc_extract_content (["H1: Title"])
        (["SAFETY_CTX: Risk Warnings found in document."]) [] []).2).map
      BigChunk.big_chunk_index ≠
      List.range' 0
        ((google_doc_extract_content (["H1: Title"])
          (["SAFETY_CTX: Risk Warnings found in document."]) [] []).2).length := by
  refine ⟨by decide, by decide⟩
